import Mathlib

/-!
# Verification of the vehicle-plate-detection pipeline core

A shallow embedding of the per-track state machine (`vehicle.py`), the
stage loops of the processing pipeline (`inference_pipeline.py`) and the
character-reading engine (`ocr.py`), together with proofs and refutations
of the specified properties.

Modelling conventions:
* Python floats are modelled as exact rationals (`ℚ`).
* Images are opaque values carrying their dimensions and the sharpness
  that the external `cv2.Laplacian` focus measure would report for them
  (the focus measure itself is external code, outside the pipeline core).
* The wall clock (`datetime.now()`) is an abstract tick (`ℕ`) passed in
  by the caller of each mutating operation.
* Mutating methods become functions from the old state (and arguments)
  to the new state, paired with their return value where they have one.
-/

namespace VPD

/-- An image: opaque pixel data abstracted to its height, width and the
sharpness value the external Laplacian-variance focus measure reports. -/
structure Img where
  h : ℕ
  w : ℕ
  sharp : ℚ
  deriving DecidableEq

/-- An axis-aligned bounding box `(x1, y1, x2, y2)`, coordinates as the
external detector reports them (floats, modelled as rationals). -/
structure Box where
  x1 : ℚ
  y1 : ℚ
  x2 : ℚ
  y2 : ℚ
  deriving DecidableEq

/-- Python `str.isalnum()`: nonempty and every character alphanumeric. -/
def pyIsAlnum (s : String) : Bool :=
  s ≠ "" && s.toList.all Char.isAlphanum

/-- Python `str.strip()`: drop leading and trailing whitespace. -/
def pyStrip (s : String) : String :=
  String.mk
    (((s.toList.dropWhile Char.isWhitespace).reverse.dropWhile
      Char.isWhitespace).reverse)

/-- Python `abs` on floats. -/
def pyAbs (q : ℚ) : ℚ := if q < 0 then -q else q

/-- Python truthiness of an optional string: `None` and `""` are falsy. -/
def pyTruthyStr : Option String → Bool
  | none => false
  | some s => s ≠ ""

/-- Round half to even to the nearest integer (Python `round` on exact
decimal values; the binary-float artefacts of CPython are not modelled). -/
def roundHalfEven (x : ℚ) : ℤ :=
  let f := x.floor
  let frac := x - (f : ℚ)
  if frac < 1/2 then f
  else if (1:ℚ)/2 < frac then f + 1
  else if f % 2 = 0 then f else f + 1

/-- Python `round(x, d)` on exact decimals. -/
def pyRoundTo (d : ℕ) (x : ℚ) : ℚ :=
  (roundHalfEven (x * 10 ^ d) : ℚ) / 10 ^ d

/-- Python `round(x, 2)` on exact decimals. -/
def pyRound2 (x : ℚ) : ℚ := pyRoundTo 2 x

/-- The per-track accumulator of `vehicle.py` (`class Vehicle`).
`last_seen` is the abstract clock tick of the last update. -/
structure Vehicle where
  track_id : ℕ
  stream_id : String
  best_vehicle_img : Option Img
  best_plate_img : Option Img
  best_ocr_text : Option String
  best_plate_confidence : ℚ
  best_ocr_confidence : ℚ
  best_plate_area : ℚ
  best_plate_sharpness : ℚ
  frame_count : ℕ
  last_seen : ℕ
  has_been_saved : Bool
  deriving DecidableEq

/-- `Vehicle.__init__`: fresh accumulator for a newly seen track id. -/
def Vehicle.init (track_id : ℕ) (stream_id : String) (now : ℕ) : Vehicle where
  track_id := track_id
  stream_id := stream_id
  best_vehicle_img := none
  best_plate_img := none
  best_ocr_text := none
  best_plate_confidence := 0
  best_ocr_confidence := 0
  best_plate_area := 0
  best_plate_sharpness := 0
  frame_count := 0
  last_seen := now
  has_been_saved := false

/-- `Vehicle._calculate_sharpness`: 0 for `None`, otherwise the (external)
Laplacian-variance focus measure, carried here by the image itself. -/
def calcSharpness : Option Img → ℚ
  | none => 0
  | some img => img.sharp

/-- `Vehicle._calculate_plate_area`: `|x2-x1| * |y2-y1|`, 0 for `None`. -/
def calcPlateArea : Option Box → ℚ
  | none => 0
  | some b => pyAbs (b.x2 - b.x1) * pyAbs (b.y2 - b.y1)

/-- `Vehicle._is_better_plate`: weighted-score comparison of a new plate
observation against the stored best (lines 51-68 of `vehicle.py`). -/
def Vehicle.isBetterPlate (v : Vehicle) (new_confidence : ℚ)
    (new_box : Option Box) (new_sharpness : ℚ) : Bool :=
  if v.best_plate_img = none then
    true
  else
    let new_area := calcPlateArea new_box
    let norm_area := min (new_area / 30000) 1
    let norm_sharpness := min (new_sharpness / 2000) 1
    let current_norm_area := min (v.best_plate_area / 30000) 1
    let current_norm_sharpness := min (v.best_plate_sharpness / 2000) 1
    let current_score := v.best_plate_confidence * (1/2) +
      current_norm_area * (1/4) + current_norm_sharpness * (1/4)
    let new_score := new_confidence * (1/2) +
      norm_area * (1/4) + norm_sharpness * (1/4)
    decide (current_score < new_score)

/-- `Vehicle._is_better_ocr`, embedded exactly as written (lines 70-78 of
`vehicle.py`): note the final comparison is `new_score > new_score`. -/
def Vehicle.isBetterOcr (v : Vehicle) (new_text : String)
    (new_confidence : ℚ) : Bool :=
  if new_text = "" || pyStrip new_text = "" then
    false
  else if v.best_ocr_text = none then
    true
  else
    let best := v.best_ocr_text.getD ("")
    let current_score := v.best_ocr_confidence * (7/10) +
      (best.length : ℚ) * (1/10) + (if pyIsAlnum best then 2/10 else 0)
    let new_score := new_confidence * (7/10) +
      (new_text.length : ℚ) * (1/10) + (if pyIsAlnum new_text then 2/10 else 0)
    decide (new_score < new_score)

/-- Keyword arguments of `Vehicle.update`, plus the clock tick. -/
structure UpdateArgs where
  vehicle_crop : Img
  plate_crop : Option Img := none
  plate_box : Option Box := none
  plate_confidence : ℚ := 0
  ocr_text : Option String := none
  ocr_confidence : ℚ := 0
  now : ℕ := 0

/-- The plate block of `Vehicle.update` (lines 85-93 of `vehicle.py`):
adopt the plate observation when present and better. -/
def Vehicle.updatePlate (v : Vehicle) (a : UpdateArgs) : Vehicle :=
  match a.plate_crop, a.plate_box with
  | some crop, some box =>
    let plate_sharpness := calcSharpness (some crop)
    if v.isBetterPlate a.plate_confidence (some box) plate_sharpness then
      { v with
        best_plate_img := some crop
        best_vehicle_img := some a.vehicle_crop
        best_plate_confidence := a.plate_confidence
        best_plate_sharpness := plate_sharpness
        best_plate_area := calcPlateArea (some box) }
    else v
  | _, _ => v

/-- The text block of `Vehicle.update` (lines 95-98 of `vehicle.py`):
adopt the reading when truthy and judged better. -/
def Vehicle.updateOcr (v : Vehicle) (a : UpdateArgs) : Vehicle :=
  if pyTruthyStr a.ocr_text &&
      v.isBetterOcr (a.ocr_text.getD ("")) a.ocr_confidence then
    { v with
      best_ocr_text := a.ocr_text
      best_ocr_confidence := a.ocr_confidence }
  else v

/-- `Vehicle.update` (lines 80-98 of `vehicle.py`): bump the observation
count and the last-seen tick, then run the plate block, then the text
block, exactly in source order. -/
def Vehicle.update (v : Vehicle) (a : UpdateArgs) : Vehicle :=
  Vehicle.updateOcr
    (Vehicle.updatePlate
      { v with frame_count := v.frame_count + 1, last_seen := a.now } a) a

/-- The record `Vehicle.get_final_data` compiles (the timestamp is the
abstract `last_seen` tick). -/
structure FinalData where
  track_id : ℕ
  plate_text : String
  ocr_confidence : ℚ
  plate_confidence : ℚ
  timestamp : ℕ
  deriving DecidableEq

/-- `Vehicle.get_final_data` (lines 100-111 of `vehicle.py`): `None`
unless both a best text and a best plate image are present. -/
def Vehicle.getFinalData (v : Vehicle) : Option FinalData :=
  match v.best_ocr_text, v.best_plate_img with
  | some text, some _ =>
    some { track_id := v.track_id
           plate_text := text
           ocr_confidence := pyRound2 v.best_ocr_confidence
           plate_confidence := pyRound2 v.best_plate_confidence
           timestamp := v.last_seen }
  | _, _ => none

/-- The filename sanitiser of `Vehicle.save_final_results` (lines
125-127): keep alphanumerics, uppercase, fixed placeholder if empty. -/
def sanitizeOcr (s : String) : String :=
  let t := String.mk ((s.toList.filter Char.isAlphanum).map Char.toUpper)
  if t = "" then ("UNKNOWN_PLATE") else t

/-- `Vehicle.save_final_results` (lines 113-170 of `vehicle.py`): returns
the emitted record (if any) and the new state.  Filesystem writes are
side effects outside the state machine; the `has_been_saved` flag and the
returned record are what the pipeline observes. -/
def Vehicle.saveFinalResults (v : Vehicle) : Option FinalData × Vehicle :=
  if v.has_been_saved then
    (none, v)
  else
    match v.getFinalData with
    | none => (none, v)
    | some final_data => (some final_data, { v with has_been_saved := true })

/-! ## The stage loops of `inference_pipeline.py` (`StreamProcessor`) -/

/-- Python `int()` applied to a float: truncation toward zero. -/
def pyInt (q : ℚ) : ℤ := if q < 0 then -(Rat.floor (-q)) else Rat.floor q

/-- Normalise one numpy slice endpoint against an axis length:
negative indices count from the end, both ends clamp to `[0, len]`. -/
def npNorm (len : ℕ) (i : ℤ) : ℕ :=
  if i < 0 then (len + i).toNat else min i.toNat len

/-- Length of the numpy slice `a[i:j]` on an axis of length `len`. -/
def npSliceLen (len : ℕ) (i j : ℤ) : ℕ := npNorm len j - npNorm len i

/-- The crop `img[y1:y2, x1:x2]` taken with the integer-truncated
coordinates of `b`, as in `_detect_plates`.  The focus measure of the
cropped pixels is external; it is carried over from the source image,
and no claim below depends on a crop's sharpness value. -/
def cropImg (img : Img) (b : Box) : Img :=
  { h := npSliceLen img.h (pyInt b.y1) (pyInt b.y2)
    w := npSliceLen img.w (pyInt b.x1) (pyInt b.x2)
    sharp := img.sharp }

/-- numpy `.size` of an image: total number of entries. -/
def imgSize (img : Img) : ℕ := img.h * img.w

/-- Lookup in the `tracked_vehicles` dictionary (insertion-ordered
association list). -/
def lookupVehicle (tracked : List (ℕ × Vehicle)) (id : ℕ) : Option Vehicle :=
  (tracked.find? (fun p => p.1 = id)).map Prod.snd

/-- Replace the entry for `id` in the `tracked_vehicles` dictionary. -/
def setVehicle (tracked : List (ℕ × Vehicle)) (id : ℕ) (v : Vehicle) :
    List (ℕ × Vehicle) :=
  tracked.map (fun p => if p.1 = id then (p.1, v) else p)

/-- One detection of the plate sub-detector: a box and a confidence. -/
structure PlateDet where
  box : Box
  conf : ℚ
  deriving DecidableEq

/-- A message on `vehicle_queue`: `(frame, track_id, vehicle_box)`. -/
structure VehicleMsg where
  frame : Img
  track_id : ℕ
  vehicle_box : Box
  deriving DecidableEq

/-- A message on `plate_queue`:
`(track_id, vehicle_crop, plate_crop, plate_box, plate_confidence)`. -/
structure PlateMsg where
  track_id : ℕ
  vehicle_crop : Img
  plate_crop : Img
  plate_box : Box
  plate_confidence : ℚ
  deriving DecidableEq

/-- The body of one `_detect_plates` iteration after a real tuple has
been dequeued (lines 183-204 of `inference_pipeline.py`).  The plate
model's output is a list of `Results`, each carrying its boxes; the code
tests `if not plate_results` and otherwise iterates `plate_results[0]`.
Returns the updated vehicle map and the messages put on `plate_queue`. -/
def detectPlatesBody (tracked : List (ℕ × Vehicle)) (frame : Img)
    (track_id : ℕ) (vehicle_box : Box)
    (plate_results : List (List PlateDet)) (now : ℕ) :
    List (ℕ × Vehicle) × List PlateMsg :=
  match lookupVehicle tracked track_id with
  | none => (tracked, [])
  | some v =>
    let vehicle_crop := cropImg frame vehicle_box
    if imgSize vehicle_crop = 0 then (tracked, [])
    else
      match plate_results with
      | [] =>
        (setVehicle tracked track_id
          (v.update { vehicle_crop := vehicle_crop, now := now }), [])
      | r0 :: _ =>
        (tracked,
         r0.filterMap (fun pd =>
           let plate_crop := cropImg vehicle_crop pd.box
           if 0 < imgSize plate_crop then
             some { track_id := track_id
                    vehicle_crop := vehicle_crop
                    plate_crop := plate_crop
                    plate_box := pd.box
                    plate_confidence := pyRoundTo 3 pd.conf }
           else none))

/-- The body of one `_perform_ocr_and_update` iteration after a real
tuple has been dequeued (lines 213-226): look up the vehicle, read the
plate text, update.  `ocr_confidence` is hard-coded to `0` there. -/
def ocrBody (tracked : List (ℕ × Vehicle)) (msg : PlateMsg)
    (ocr_text : Option String) (now : ℕ) : List (ℕ × Vehicle) :=
  match lookupVehicle tracked msg.track_id with
  | none => tracked
  | some v =>
    setVehicle tracked msg.track_id
      (v.update { vehicle_crop := msg.vehicle_crop
                  plate_crop := some msg.plate_crop
                  plate_box := some msg.plate_box
                  plate_confidence := msg.plate_confidence
                  ocr_text := ocr_text
                  ocr_confidence := 0
                  now := now })

/-- State owned by the tracker stage: the `tracked_vehicles` dictionary
and the per-stream results deque (`ANPR_RESULTS`, `maxlen=50`). -/
structure TrackState where
  tracked : List (ℕ × Vehicle)
  results : List FinalData
  deriving DecidableEq

/-- Append to a `deque(maxlen=50)`: oldest entries are evicted. -/
def pushResult (rs : List FinalData) (r : FinalData) : List FinalData :=
  let rs2 := rs ++ [r]
  rs2.drop (rs2.length - 50)

/-- The vehicle-lifecycle part of one `_track_vehicles_and_manage_lifecycle`
iteration (lines 121-148): finalize disappeared tracks, create vehicles
for new track ids, forward `(frame, track_id, box)` for each detection.
Dict/set iteration order is modelled by insertion order. -/
def trackLifecycle (st : TrackState) (stream_id : String) (frame : Img)
    (dets : List (ℕ × Box)) (now : ℕ) : TrackState × List VehicleMsg :=
  let currentIds := dets.map Prod.fst
  let disappeared := st.tracked.filter (fun p => decide (p.1 ∉ currentIds))
  let results2 := disappeared.foldl
    (fun rs p =>
      match (p.2.saveFinalResults).1 with
      | some d => pushResult rs d
      | none => rs) st.results
  let remaining := st.tracked.filter (fun p => decide (p.1 ∈ currentIds))
  let tracked2 := dets.foldl
    (fun tr det =>
      if lookupVehicle tr det.1 = none then
        tr ++ [(det.1, Vehicle.init det.1 stream_id now)]
      else tr) remaining
  let msgs := dets.map (fun det => VehicleMsg.mk frame det.1 det.2)
  ({ tracked := tracked2, results := results2 }, msgs)

/-- One `_track_vehicles_and_manage_lifecycle` iteration as it depends on
the external tracker call: `vehicle_model.track` sits at line 119 with no
surrounding `try`, so a raised exception aborts the iteration (and, with
no handler in the loop, the stage thread). -/
def trackStageRun (st : TrackState) (stream_id : String) (frame : Img)
    (svcResult : Except String (List (ℕ × Box))) (now : ℕ) :
    Except String (TrackState × List VehicleMsg) :=
  match svcResult with
  | Except.error e => Except.error e
  | Except.ok dets => Except.ok (trackLifecycle st stream_id frame dets now)

/-- One `_detect_plates` iteration as it depends on the external
sub-detector call: `plate_model.predict` sits at line 190 with no
surrounding `try`. -/
def detectStageRun (tracked : List (ℕ × Vehicle)) (frame : Img)
    (track_id : ℕ) (vehicle_box : Box)
    (svcResult : Except String (List (List PlateDet))) (now : ℕ) :
    Except String (List (ℕ × Vehicle) × List PlateMsg) :=
  match svcResult with
  | Except.error e => Except.error e
  | Except.ok rs => Except.ok (detectPlatesBody tracked frame track_id vehicle_box rs now)

/-- One `_perform_ocr_and_update` iteration as it depends on the external
reader call: `ocr_model.process_lp` sits at line 217 with no
surrounding `try`. -/
def ocrStageRun (tracked : List (ℕ × Vehicle)) (msg : PlateMsg)
    (svcResult : Except String (Option String)) (now : ℕ) :
    Except String (List (ℕ × Vehicle)) :=
  match svcResult with
  | Except.error e => Except.error e
  | Except.ok t => Except.ok (ocrBody tracked msg t now)

/-- How one loop iteration of a stage consumer ends. -/
inductive IterEnd
  /-- Control returned to the `while` test and the test passed. -/
  | loops
  /-- Control returned to the `while` test and the test failed. -/
  | stops
  /-- An uncaught exception escaped the loop and killed the thread. -/
  | dies
  deriving DecidableEq

/-- How one `_track_vehicles_and_manage_lifecycle` iteration ends, given
the running flag and the dequeued item (`none` is the `None` sentinel):
the sentinel hits `if frame is None: continue` (line 115), a real frame
is processed, and either way control returns to `while running` (112). -/
def trackStageIterEnd (running : Bool) (item : Option Img) : IterEnd :=
  match item with
  | none => if running then IterEnd.loops else IterEnd.stops
  | some _ => if running then IterEnd.loops else IterEnd.stops

/-- How one `_detect_plates` iteration ends: the dequeued item is tuple
unpacked at line 179 before the `None` guard at line 180, so dequeuing
the sentinel raises `TypeError`, caught by nothing. -/
def detectStageIterEnd (running : Bool) (item : Option VehicleMsg) : IterEnd :=
  match item with
  | none => IterEnd.dies
  | some _ => if running then IterEnd.loops else IterEnd.stops

/-- How one `_perform_ocr_and_update` iteration ends: the dequeued item
is tuple unpacked at line 209 before the `None` guard at line 210, so
dequeuing the sentinel raises `TypeError`, caught by nothing. -/
def ocrStageIterEnd (running : Bool) (item : Option PlateMsg) : IterEnd :=
  match item with
  | none => IterEnd.dies
  | some _ => if running then IterEnd.loops else IterEnd.stops

/-- The frame-skipping fold of `_read_frames` (lines 103-108): the
counter starts at `cnt`, is incremented per captured frame, and a frame
is forwarded exactly when the incremented counter is divisible by `N`. -/
def readFramesAux (N : ℕ) (cnt : ℕ) : List Img → List Img
  | [] => []
  | f :: fs =>
    if (cnt + 1) % N ≠ 0 then readFramesAux N (cnt + 1) fs
    else f :: readFramesAux N (cnt + 1) fs

/-- The frames `_read_frames` forwards to `frame_queue` out of a list of
successfully captured frames, with `skip_frames = N` and `frame_num`
starting at 0 (assuming every `put` is accepted downstream). -/
def readFrames (N : ℕ) (fs : List Img) : List Img := readFramesAux N 0 fs

/-! ## The character-reading engine of `ocr.py` (`OcrEngine`) -/

/-- The `char_map` dictionary of `OcrEngine.__init__`: class id to
character, digits then letters with `O` skipped.  Keys outside the map
raise `KeyError` in Python, hence `Option`. -/
def charMap : ℕ → Option Char
  | 0 => some '0'
  | 1 => some '1'
  | 2 => some '2'
  | 3 => some '3'
  | 4 => some '4'
  | 5 => some '5'
  | 6 => some '6'
  | 7 => some '7'
  | 8 => some '8'
  | 9 => some '9'
  | 10 => some 'A'
  | 11 => some 'B'
  | 12 => some 'C'
  | 13 => some 'D'
  | 14 => some 'E'
  | 15 => some 'F'
  | 16 => some 'G'
  | 17 => some 'H'
  | 18 => some 'I'
  | 19 => some 'J'
  | 20 => some 'K'
  | 21 => some 'L'
  | 22 => some 'M'
  | 23 => some 'N'
  | 24 => some 'P'
  | 25 => some 'Q'
  | 26 => some 'R'
  | 27 => some 'S'
  | 28 => some 'T'
  | 29 => some 'U'
  | 30 => some 'V'
  | 31 => some 'W'
  | 32 => some 'X'
  | 33 => some 'Y'
  | 34 => some 'Z'
  | _ => none

/-- One row of `op[0].boxes.data`: `[x1, y1, x2, y2, confidence, class]`. -/
structure CharDet where
  x1 : ℚ
  y1 : ℚ
  x2 : ℚ
  y2 : ℚ
  conf : ℚ
  cls : ℕ
  deriving DecidableEq

/-- The per-box record built in `sort_and_create_vehicle_number`
(lines 76-86 of `ocr.py`). -/
structure CBox where
  center_x : ℚ
  center_y : ℚ
  width : ℚ
  height : ℚ
  cls : ℕ
  deriving DecidableEq

/-- Lines 77-86 of `ocr.py`: centers and extents of one detection. -/
def toCBox (d : CharDet) : CBox :=
  { center_x := (d.x1 + d.x2) / 2
    center_y := (d.y1 + d.y2) / 2
    width := d.x2 - d.x1
    height := d.y2 - d.y1
    cls := d.cls }

/-- The line-grouping loop of `sort_and_create_vehicle_number`
(lines 97-111): walk the y-sorted boxes, keep a box on the current line
when its `center_y` is within `0.7·avg_height` of the line's first box,
otherwise start a new line; the last line is always appended. -/
def groupLinesAux (avg : ℚ) (cur0 : CBox) (cur : List CBox) :
    List CBox → List (List CBox)
  | [] => [cur]
  | b :: bs =>
    if pyAbs (b.center_y - cur0.center_y) < avg * (7/10) then
      groupLinesAux avg cur0 (cur ++ [b]) bs
    else
      cur :: groupLinesAux avg b [b] bs

/-- The sort key `line[0]['center_y']` (line 119); the unreachable empty
line defaults to 0 (grouping only ever produces nonempty lines). -/
def lineKey (l : List CBox) : ℚ := ((l.head?).map CBox.center_y).getD 0

/-- `"".join(char_map[box['class']] for box in line)` (line 122); `none`
models a `KeyError` on a class id outside the map. -/
def lineText (l : List CBox) : Option String :=
  (l.mapM (fun b => charMap b.cls)).map (fun cs => String.mk cs)

/-- `OcrEngine.sort_and_create_vehicle_number` (lines 52-125 of
`ocr.py`), on the model output `op` given as one list of detection rows
per `Results` object.  `none` models an uncaught exception: a
`ZeroDivisionError` when `op[0]` has no rows, or a `KeyError` from
`char_map`.  Python sorts are stable; they are modelled by stable
insertion sort on the same keys. -/
def sortAndCreateVehicleNumber (op : List (List CharDet)) : Option String :=
  match op with
  | [] => some ("")
  | dets :: _ =>
    match dets with
    | [] => none
    | d0 :: drest =>
      let boxes := (d0 :: drest).map toCBox
      let avg_height := (boxes.map CBox.height).sum / (boxes.length : ℚ)
      let ysorted :=
        boxes.insertionSort (fun a b => a.center_y ≤ b.center_y)
      match ysorted with
      | [] => none
      | s0 :: srest =>
        let lines := groupLinesAux avg_height s0 [s0] srest
        let linesX :=
          lines.map (List.insertionSort (fun a b => a.center_x ≤ b.center_x))
        let linesSorted :=
          linesX.insertionSort (fun l1 l2 => lineKey l1 ≤ lineKey l2)
        (linesSorted.mapM lineText).map
          (fun ts => pyStrip (String.intercalate ("_") ts))

/-- Outcome of `OcrEngine.process_lp`. -/
inductive ReadResult
  /-- An uncaught exception inside the reader. -/
  | crash
  /-- `lp = None`: no reading for this crop. -/
  | noRead
  /-- A reading was assembled and returned. -/
  | read (s : String)
  deriving DecidableEq

/-- `OcrEngine.process_lp` (lines 18-27 of `ocr.py`) together with
`postprocess_lp`: count the character boxes of `op[0]`; strictly more
than 5 assembles a reading, otherwise `None` is returned.  An empty
`op` would raise `IndexError` at `op[0]`. -/
def process_lp (op : List (List CharDet)) : ReadResult :=
  match op with
  | [] => ReadResult.crash
  | dets :: _ =>
    if 5 < dets.length then
      match sortAndCreateVehicleNumber op with
      | some s => ReadResult.read s
      | none => ReadResult.crash
    else ReadResult.noRead

/-! ## Spec-side definitions

Definitions below follow the wording of the specification, to be
compared against the embedded code. -/

/-- The region quality score as the spec words it:
`0.5·confidence + 0.25·min(area/30000, 1) + 0.25·min(sharpness/2000, 1)`. -/
def regionScore (confidence area sharpness : ℚ) : ℚ :=
  (1/2) * confidence + (1/4) * min (area / 30000) 1 +
    (1/4) * min (sharpness / 2000) 1

/-- The text quality score as the spec words it:
`0.7·confidence + 0.1·length + 0.2·(1 if purely alphanumeric else 0)`. -/
def textScore (confidence : ℚ) (text : String) : ℚ :=
  (7/10) * confidence + (1/10) * (text.length : ℚ) +
    (if pyIsAlnum text then 2/10 else 0)

/-- The score of the stored best region, if one exists. -/
def bestPlateScore (v : Vehicle) : Option ℚ :=
  match v.best_plate_img with
  | none => none
  | some _ =>
    some (regionScore v.best_plate_confidence v.best_plate_area
      v.best_plate_sharpness)

/-- The score of the stored best text reading, if one exists. -/
def bestTextScore (v : Vehicle) : Option ℚ :=
  match v.best_ocr_text with
  | none => none
  | some t => some (textScore v.best_ocr_confidence t)

/-- Order on optional scores: absence is below everything. -/
def scoreLeB : Option ℚ → Option ℚ → Bool
  | none, _ => true
  | some _, none => false
  | some x, some y => decide (x ≤ y)

/-- A sequence of updates applied to one `Vehicle`. -/
def applyUpdates (v : Vehicle) (l : List UpdateArgs) : Vehicle :=
  l.foldl Vehicle.update v

/-- An operation performed on one `Vehicle` during its lifetime. -/
inductive VehicleOp where
  | upd (a : UpdateArgs)
  | save

/-- Apply one operation (the return value of a save is discarded). -/
def applyOp (v : Vehicle) : VehicleOp → Vehicle
  | VehicleOp.upd a => v.update a
  | VehicleOp.save => (v.saveFinalResults).2

/-- Apply a sequence of operations. -/
def applyOps (v : Vehicle) (ops : List VehicleOp) : Vehicle :=
  ops.foldl applyOp v

/-- The frames the spec says decimation keeps: exactly those whose
1-based capture index is a multiple of `N`. -/
def specDecimate (N : ℕ) (fs : List Img) : List Img :=
  ((List.enumFrom 1 fs).filter (fun p => p.1 % N = 0)).map Prod.snd

/-! ## Concrete sample inputs used by witnesses and counterexamples -/

/-- A sample 8x8 frame. -/
def sampleImg : Img := { h := 8, w := 8, sharp := 100 }

/-- A sample detection box. -/
def sampleBox : Box := { x1 := 0, y1 := 0, x2 := 4, y2 := 4 }

/-- A freshly created tracked vehicle. -/
def sampleVehicle : Vehicle := Vehicle.init 1 ("s") 0

/-- A sample message on `plate_queue`. -/
def sampleMsg : PlateMsg :=
  { track_id := 1, vehicle_crop := sampleImg, plate_crop := sampleImg
    plate_box := sampleBox, plate_confidence := 1/2 }

/-- A vehicle holding a stored best text reading of low quality. -/
def c1Vehicle : Vehicle := { sampleVehicle with best_ocr_text := some ("A") }

/-- A vehicle with both a best text and a best plate image present. -/
def savedVehicle : Vehicle :=
  { sampleVehicle with
    best_ocr_text := some ("AB12")
    best_plate_img := some sampleImg
    last_seen := 5 }

/-! ## Claims -/

/-- Claim C2 counterexample: dequeuing the shutdown sentinel does not
stop the plate-detector or OCR consumer loop; both die of an uncaught
`TypeError` raised by tuple-unpacking the sentinel, which is not a clean
loop stop. -/
theorem c2_sentinel_not_clean_stop_cex :
    detectStageIterEnd false none = IterEnd.dies ∧
    ocrStageIterEnd false none = IterEnd.dies ∧
    IterEnd.dies ≠ IterEnd.stops :=
  ⟨rfl, rfl, by decide⟩

/-- Claim C2 (amended): at shutdown the running flag is already cleared
when the sentinel is dequeued.  The tracker-stage consumer skips the
sentinel via its `None` guard and stops only at the next `while`-flag
test (with the flag still set it would keep looping); the plate-detector
and OCR consumers never reach their `None` guards — unpacking the
sentinel tuple raises an uncaught `TypeError` that kills the stage
thread instead of stopping its loop cleanly. -/
theorem c2_sentinel_shutdown_amended :
    trackStageIterEnd false none = IterEnd.stops ∧
    trackStageIterEnd true none = IterEnd.loops ∧
    (∀ item : Option Img, trackStageIterEnd false item = IterEnd.stops) ∧
    detectStageIterEnd false none = IterEnd.dies ∧
    ocrStageIterEnd false none = IterEnd.dies := by
  refine ⟨rfl, rfl, ?_, rfl, rfl⟩
  intro item
  cases item <;> rfl

/-- Claim C7: an exception from an external model service is not caught
at any stage call site; each stage body propagates it out of the loop
(killing the stage thread) instead of treating it as no detection. -/
theorem c7_service_exception_propagates :
    trackStageRun { tracked := [], results := [] } ("s") sampleImg
      (Except.error ("boom")) 0 = Except.error ("boom") ∧
    detectStageRun [] sampleImg 1 sampleBox
      (Except.error ("boom")) 0 = Except.error ("boom") ∧
    ocrStageRun [] sampleMsg
      (Except.error ("boom")) 0 = Except.error ("boom") :=
  ⟨rfl, rfl, rfl⟩

/-- Claim C8 counterexample: the tracked entity exists and the vehicle
crop is non-degenerate, the sub-detector finds zero plate boxes (one
truthy `Results` object containing no boxes), yet no update at all is
delivered: the vehicle map is unchanged and the observation count stays
at 0. -/
theorem c8_zero_boxes_no_update_cex :
    imgSize (cropImg sampleImg sampleBox) ≠ 0 ∧
    lookupVehicle [(7, sampleVehicle)] 7 = some sampleVehicle ∧
    detectPlatesBody [(7, sampleVehicle)] sampleImg 7 sampleBox [[]] 0 =
      ([(7, sampleVehicle)], []) ∧
    (lookupVehicle
      (detectPlatesBody [(7, sampleVehicle)] sampleImg 7 sampleBox [[]] 0).1
      7).map Vehicle.frame_count = some 0 := by
  decide

/-- Claim C8 (amended): for a consumed triple whose tracked entity still
exists and whose crop is non-degenerate, the no-region update is
delivered exactly when the sub-detector returns an empty (falsy) results
list; a non-empty results list — even one whose entries contain no
boxes — delivers no update to the entity. -/
theorem c8_no_region_update_amended (tracked : List (ℕ × Vehicle))
    (frame : Img) (id : ℕ) (box : Box) (rs : List (List PlateDet))
    (now : ℕ) (v : Vehicle)
    (hv : lookupVehicle tracked id = some v)
    (hc : imgSize (cropImg frame box) ≠ 0) :
    (detectPlatesBody tracked frame id box rs now).1 =
      if rs = [] then
        setVehicle tracked id
          (v.update { vehicle_crop := cropImg frame box, now := now })
      else tracked := by
  unfold detectPlatesBody
  rw [hv]
  simp only [hc, if_neg, ite_false]
  cases rs <;> simp

/-- Claim C8 amended witness at a concrete empty results list. -/
theorem c8_no_region_update_amended_witness :
    (detectPlatesBody [(7, sampleVehicle)] sampleImg 7 sampleBox [] 0).1 =
      setVehicle [(7, sampleVehicle)] 7
        (sampleVehicle.update
          { vehicle_crop := cropImg sampleImg sampleBox, now := 0 }) := by
  have h := c8_no_region_update_amended [(7, sampleVehicle)] sampleImg 7
    sampleBox [] 0 sampleVehicle (by decide) (by decide)
  simpa using h

/-- Claim C10: the reader assembles and returns a text string only when
strictly more than 5 character boxes are detected; with 5 or fewer it
returns no reading. -/
theorem c10_min_char_count (dets : List CharDet)
    (rest : List (List CharDet)) :
    (process_lp (dets :: rest) = ReadResult.noRead ↔ dets.length ≤ 5) ∧
    (∀ s, process_lp (dets :: rest) = ReadResult.read s →
      5 < dets.length) := by
  by_cases hlen : 5 < dets.length
  · constructor
    · constructor
      · intro h
        unfold process_lp at h
        simp only [if_pos hlen] at h
        cases hs : sortAndCreateVehicleNumber (dets :: rest) <;>
          rw [hs] at h <;> simp at h
      · intro h
        omega
    · intro s _
      exact hlen
  · constructor
    · constructor
      · intro _
        omega
      · intro _
        unfold process_lp
        simp [hlen]
    · intro s h
      unfold process_lp at h
      simp [hlen] at h


/-- Claim C10 witness: a single detected character box yields no
reading. -/
theorem c10_min_char_count_witness :
    process_lp [[CharDet.mk 0 0 2 3 (1/2) 10]] = ReadResult.noRead :=
  (c10_min_char_count _ _).1.mpr (by decide)

/-- Claim C4: finalization yields no record when either the best text or
the best plate image is absent (hence a record is produced only when
both are present). -/
theorem c4_evidence_sufficiency (v : Vehicle)
    (h : v.best_ocr_text = none ∨ v.best_plate_img = none) :
    (v.saveFinalResults).1 = none := by
  unfold Vehicle.saveFinalResults
  by_cases hs : v.has_been_saved
  · simp [hs]
  · simp only [hs, ite_false, Bool.false_eq_true]
    unfold Vehicle.getFinalData
    rcases h with h | h <;> rw [h] <;> cases hv2 : v.best_plate_img <;>
      cases hv1 : v.best_ocr_text <;> simp_all

/-- Claim C4 witness: a fresh vehicle with no accepted text yields no
record. -/
theorem c4_evidence_sufficiency_witness :
    (sampleVehicle.saveFinalResults).1 = none :=
  c4_evidence_sufficiency sampleVehicle (Or.inl rfl)

/-- Claim C1 (code bug): against a stored best text of score 0.3, a new
alphanumeric reading of score 1.5 is rejected — `_is_better_ocr`
compares `new_score > new_score`, which never holds, instead of
comparing against the incumbent as the spec states (the spec flags this
very comparison as a defect). -/
theorem c1_text_replacement_code_bug :
    textScore 0 ("A") < textScore 1 ("ABC123") ∧
    Vehicle.isBetterOcr c1Vehicle ("ABC123") 1 = false ∧
    (c1Vehicle.update
        { vehicle_crop := sampleImg
          ocr_text := some ("ABC123")
          ocr_confidence := 1 }).best_ocr_text = some ("A") := by
  refine ⟨?_, ?_, ?_⟩
  · rw [textScore, textScore,
      show pyIsAlnum ("A") = true from by decide,
      show pyIsAlnum ("ABC123") = true from by decide]
    norm_num [show ("A").length = 1 from rfl,
      show ("ABC123").length = 6 from rfl]
  · rw [Vehicle.isBetterOcr]
    simp only [show c1Vehicle.best_ocr_text = some ("A") from rfl]
    simp [pyStrip, lt_irrefl]
  · simp [Vehicle.update, Vehicle.updatePlate, Vehicle.updateOcr,
      Vehicle.isBetterOcr, pyTruthyStr, pyStrip, lt_irrefl, c1Vehicle]

end VPD

namespace VPD

lemma isBetterPlate_iff (v : Vehicle) (conf sharp : ℚ) (box : Box) :
    v.isBetterPlate conf (some box) sharp = true ↔
      (v.best_plate_img = none ∨
        regionScore v.best_plate_confidence v.best_plate_area
            v.best_plate_sharpness <
          regionScore conf (calcPlateArea (some box)) sharp) := by
  unfold Vehicle.isBetterPlate regionScore
  by_cases hb : v.best_plate_img = none
  · simp [hb]
  · simp only [hb, if_false, decide_eq_true_eq, false_or]
    constructor <;> intro h <;> linarith

lemma updateOcr_plate_fields (v : Vehicle) (a : UpdateArgs) :
    ((Vehicle.updateOcr v a).best_plate_img,
      (Vehicle.updateOcr v a).best_plate_confidence,
      (Vehicle.updateOcr v a).best_plate_area,
      (Vehicle.updateOcr v a).best_plate_sharpness) =
      (v.best_plate_img, v.best_plate_confidence, v.best_plate_area,
        v.best_plate_sharpness) := by
  unfold Vehicle.updateOcr
  split <;> rfl

lemma update_plate_fields (v : Vehicle) (a : UpdateArgs) (crop : Img)
    (box : Box) (hc : a.plate_crop = some crop) (hb : a.plate_box = some box) :
    ((v.update a).best_plate_img, (v.update a).best_plate_confidence,
      (v.update a).best_plate_area, (v.update a).best_plate_sharpness) =
      if v.isBetterPlate a.plate_confidence (some box) crop.sharp then
        (some crop, a.plate_confidence, calcPlateArea (some box), crop.sharp)
      else
        (v.best_plate_img, v.best_plate_confidence, v.best_plate_area,
          v.best_plate_sharpness) := by
  unfold Vehicle.update
  rw [updateOcr_plate_fields]
  unfold Vehicle.updatePlate
  rw [hc, hb]
  simp only [calcSharpness]
  have h1 : Vehicle.isBetterPlate
      { v with frame_count := v.frame_count + 1, last_seen := a.now }
      a.plate_confidence (some box) crop.sharp
      = v.isBetterPlate a.plate_confidence (some box) crop.sharp := rfl
  rw [h1]
  by_cases hib : v.isBetterPlate a.plate_confidence (some box) crop.sharp
  · simp only [hib, ite_true]
  · simp only [hib, Bool.false_eq_true, ite_false]

end VPD

namespace VPD

theorem c5_region_replacement_iff (v : Vehicle) (vc crop : Img) (box : Box)
    (conf : ℚ) (ot : Option String) (oc : ℚ) (n : ℕ) :
    (v.isBetterPlate conf (some box) crop.sharp = true ↔
      (v.best_plate_img = none ∨
        regionScore v.best_plate_confidence v.best_plate_area
            v.best_plate_sharpness <
          regionScore conf (calcPlateArea (some box)) crop.sharp)) ∧
    (((v.update (UpdateArgs.mk vc (some crop) (some box) conf ot oc n)).best_plate_img,
      (v.update (UpdateArgs.mk vc (some crop) (some box) conf ot oc n)).best_plate_confidence,
      (v.update (UpdateArgs.mk vc (some crop) (some box) conf ot oc n)).best_plate_area,
      (v.update (UpdateArgs.mk vc (some crop) (some box) conf ot oc n)).best_plate_sharpness) =
      if v.best_plate_img = none ∨
          regionScore v.best_plate_confidence v.best_plate_area
              v.best_plate_sharpness <
            regionScore conf (calcPlateArea (some box)) crop.sharp then
        (some crop, conf, calcPlateArea (some box), crop.sharp)
      else
        (v.best_plate_img, v.best_plate_confidence, v.best_plate_area,
          v.best_plate_sharpness)) := by
  have hiff := isBetterPlate_iff v conf crop.sharp box
  refine ⟨hiff, ?_⟩
  have hupd := update_plate_fields v
    (UpdateArgs.mk vc (some crop) (some box) conf ot oc n) crop box rfl rfl
  rw [hupd]
  by_cases hcond : v.best_plate_img = none ∨
      regionScore v.best_plate_confidence v.best_plate_area
          v.best_plate_sharpness <
        regionScore conf (calcPlateArea (some box)) crop.sharp
  · simp [hiff.mpr hcond, hcond]
  · have hfalse : v.isBetterPlate conf (some box) crop.sharp = false := by
      rw [← Bool.not_eq_true]
      simp only [hiff]
      exact hcond
    simp [hfalse, hcond]

lemma readFramesAux_eq (N : ℕ) (cnt : ℕ) (fs : List Img) :
    readFramesAux N cnt fs =
      ((List.enumFrom (cnt + 1) fs).filter (fun p => p.1 % N = 0)).map
        Prod.snd := by
  induction fs generalizing cnt with
  | nil => rfl
  | cons f fs ih =>
    unfold readFramesAux
    by_cases h : (cnt + 1) % N = 0
    · simp [List.enumFrom, List.filter_cons, h, ih]
    · simp [List.enumFrom, List.filter_cons, h, ih]

theorem c9_decimation (N : ℕ) (fs : List Img) (h1 : 1 ≤ N) :
    readFrames N fs = specDecimate N fs := by
  unfold readFrames specDecimate
  exact readFramesAux_eq N 0 fs

theorem c9_decimation_witness :
    readFrames 3 [sampleImg, sampleImg, sampleImg, sampleImg, sampleImg,
      sampleImg, sampleImg] =
      specDecimate 3 [sampleImg, sampleImg, sampleImg, sampleImg, sampleImg,
        sampleImg, sampleImg] :=
  c9_decimation 3 _ (by decide)

end VPD

namespace VPD

lemma updatePlate_saved (v : Vehicle) (a : UpdateArgs) :
    (Vehicle.updatePlate v a).has_been_saved = v.has_been_saved := by
  unfold Vehicle.updatePlate
  split
  · dsimp only
    split <;> rfl
  · rfl

lemma updateOcr_saved (v : Vehicle) (a : UpdateArgs) :
    (Vehicle.updateOcr v a).has_been_saved = v.has_been_saved := by
  unfold Vehicle.updateOcr
  split <;> rfl

lemma update_saved (v : Vehicle) (a : UpdateArgs) :
    (v.update a).has_been_saved = v.has_been_saved := by
  unfold Vehicle.update
  rw [updateOcr_saved, updatePlate_saved]

lemma saveFinalResults_of_saved (v : Vehicle) (h : v.has_been_saved = true) :
    v.saveFinalResults = (none, v) := by
  unfold Vehicle.saveFinalResults
  rw [if_pos h]

lemma save_some_sets_flag (v : Vehicle) (d : FinalData)
    (h : (v.saveFinalResults).1 = some d) :
    (v.saveFinalResults).2.has_been_saved = true := by
  unfold Vehicle.saveFinalResults at h ⊢
  by_cases hs : v.has_been_saved = true
  · rw [if_pos hs] at h
    cases h
  · rw [if_neg hs] at h ⊢
    rcases hf : v.getFinalData with _ | fd
    · rw [hf] at h
      simp at h
    · rfl

lemma applyOp_saved (v : Vehicle) (op : VehicleOp)
    (h : v.has_been_saved = true) :
    (applyOp v op).has_been_saved = true := by
  cases op with
  | upd a => rw [applyOp, update_saved]; exact h
  | save => rw [applyOp, saveFinalResults_of_saved v h]; exact h

lemma applyOps_saved (v : Vehicle) (ops : List VehicleOp)
    (h : v.has_been_saved = true) :
    (applyOps v ops).has_been_saved = true := by
  induction ops generalizing v with
  | nil => exact h
  | cons op ops ih =>
    rw [applyOps, List.foldl_cons]
    exact ih (applyOp v op) (applyOp_saved v op h)

theorem c3_finalize_one_shot (v : Vehicle) (d : FinalData)
    (ops : List VehicleOp) (h : (v.saveFinalResults).1 = some d) :
    ((applyOps (v.saveFinalResults).2 ops).saveFinalResults).1 = none := by
  rw [saveFinalResults_of_saved _
    (applyOps_saved _ ops (save_some_sets_flag v d h))]

theorem c3_finalize_one_shot_witness :
    ((applyOps (savedVehicle.saveFinalResults).2
      [VehicleOp.save, VehicleOp.save]).saveFinalResults).1 = none :=
  c3_finalize_one_shot savedVehicle
    (FinalData.mk 1 ("AB12") (pyRound2 0) (pyRound2 0) 5)
    [VehicleOp.save, VehicleOp.save] rfl

end VPD

namespace VPD

lemma scoreLeB_refl (x : Option ℚ) : scoreLeB x x = true := by
  cases x <;> simp [scoreLeB]

lemma scoreLeB_trans (x y z : Option ℚ) (h1 : scoreLeB x y = true)
    (h2 : scoreLeB y z = true) : scoreLeB x z = true := by
  cases x <;> cases y <;> cases z <;> simp_all [scoreLeB] <;> linarith

lemma bestPlateScore_eq_of_fields (u w : Vehicle)
    (h : (u.best_plate_img, u.best_plate_confidence, u.best_plate_area,
      u.best_plate_sharpness) = (w.best_plate_img, w.best_plate_confidence,
      w.best_plate_area, w.best_plate_sharpness)) :
    bestPlateScore u = bestPlateScore w := by
  simp only [Prod.mk.injEq] at h
  obtain ⟨h1, h2, h3, h4⟩ := h
  unfold bestPlateScore
  rw [h1, h2, h3, h4]

lemma update_plate_fields_no_obs (v : Vehicle) (a : UpdateArgs)
    (h : a.plate_crop = none ∨ a.plate_box = none) :
    ((v.update a).best_plate_img, (v.update a).best_plate_confidence,
      (v.update a).best_plate_area, (v.update a).best_plate_sharpness) =
      (v.best_plate_img, v.best_plate_confidence, v.best_plate_area,
        v.best_plate_sharpness) := by
  unfold Vehicle.update
  rw [updateOcr_plate_fields]
  unfold Vehicle.updatePlate
  rcases h with h | h
  · rw [h]
  · rcases hpc : a.plate_crop with _ | crop
    · rfl
    · rw [h]

lemma bestPlateScore_mono_step (v : Vehicle) (a : UpdateArgs) :
    scoreLeB (bestPlateScore v) (bestPlateScore (v.update a)) = true := by
  rcases hpc : a.plate_crop with _ | crop
  · rw [bestPlateScore_eq_of_fields (v.update a) v
      (update_plate_fields_no_obs v a (Or.inl hpc))]
    exact scoreLeB_refl _
  · rcases hpb : a.plate_box with _ | box
    · rw [bestPlateScore_eq_of_fields (v.update a) v
        (update_plate_fields_no_obs v a (Or.inr hpb))]
      exact scoreLeB_refl _
    · have hupd := update_plate_fields v a crop box hpc hpb
      by_cases hib : v.isBetterPlate a.plate_confidence (some box) crop.sharp
        = true
      · rw [if_pos hib] at hupd
        simp only [Prod.mk.injEq] at hupd
        obtain ⟨h1, h2, h3, h4⟩ := hupd
        have hnew : bestPlateScore (v.update a) =
            some (regionScore a.plate_confidence (calcPlateArea (some box))
              crop.sharp) := by
          unfold bestPlateScore
          rw [h1, h2, h3, h4]
        rw [hnew]
        rcases hbv : v.best_plate_img with _ | i
        · unfold bestPlateScore
          rw [hbv]
          rfl
        · have hlt := (isBetterPlate_iff v a.plate_confidence crop.sharp
            box).mp hib
          rcases hlt with hh | hh
          · rw [hbv] at hh
            simp at hh
          · unfold bestPlateScore scoreLeB
            rw [hbv]
            simp [le_of_lt hh]
      · rw [if_neg hib] at hupd
        rw [bestPlateScore_eq_of_fields (v.update a) v hupd]
        exact scoreLeB_refl _

lemma updatePlate_ocr_fields (v : Vehicle) (a : UpdateArgs) :
    ((Vehicle.updatePlate v a).best_ocr_text,
      (Vehicle.updatePlate v a).best_ocr_confidence) =
      (v.best_ocr_text, v.best_ocr_confidence) := by
  unfold Vehicle.updatePlate
  split
  · dsimp only
    split <;> rfl
  · rfl

lemma bestTextScore_eq_of_fields (u w : Vehicle)
    (h : (u.best_ocr_text, u.best_ocr_confidence) =
      (w.best_ocr_text, w.best_ocr_confidence)) :
    bestTextScore u = bestTextScore w := by
  simp only [Prod.mk.injEq] at h
  obtain ⟨h1, h2⟩ := h
  unfold bestTextScore
  rw [h1, h2]

lemma updateOcr_text_mono (w : Vehicle) (a : UpdateArgs) :
    scoreLeB (bestTextScore w) (bestTextScore (Vehicle.updateOcr w a))
      = true := by
  unfold Vehicle.updateOcr
  by_cases hc : (pyTruthyStr a.ocr_text &&
      w.isBetterOcr (a.ocr_text.getD ("")) a.ocr_confidence) = true
  · rw [if_pos hc]
    have hb : w.best_ocr_text = none := by
      have h2 : w.isBetterOcr (a.ocr_text.getD ("")) a.ocr_confidence
          = true := by
        simp only [Bool.and_eq_true] at hc
        exact hc.2
      unfold Vehicle.isBetterOcr at h2
      by_cases he : (a.ocr_text.getD ("") = "" ||
          pyStrip (a.ocr_text.getD ("")) = "") = true
      · rw [if_pos he] at h2
        simp at h2
      · rw [if_neg he] at h2
        by_cases hn : w.best_ocr_text = none
        · exact hn
        · rw [if_neg hn] at h2
          simp [lt_irrefl] at h2
    unfold bestTextScore
    rw [hb]
    rfl
  · rw [if_neg hc]
    exact scoreLeB_refl _

lemma bestTextScore_mono_step (v : Vehicle) (a : UpdateArgs) :
    scoreLeB (bestTextScore v) (bestTextScore (v.update a)) = true := by
  unfold Vehicle.update
  have hveq : bestTextScore (Vehicle.updatePlate
      { v with frame_count := v.frame_count + 1, last_seen := a.now } a) =
      bestTextScore v := by
    apply bestTextScore_eq_of_fields
    exact updatePlate_ocr_fields
      { v with frame_count := v.frame_count + 1, last_seen := a.now } a
  rw [← hveq]
  exact updateOcr_text_mono _ a

lemma applyUpdates_plate_mono (v : Vehicle) (l : List UpdateArgs) :
    scoreLeB (bestPlateScore v) (bestPlateScore (applyUpdates v l))
      = true := by
  induction l generalizing v with
  | nil => exact scoreLeB_refl _
  | cons a l ih =>
    exact scoreLeB_trans _ _ _ (bestPlateScore_mono_step v a)
      (ih (v.update a))

lemma applyUpdates_text_mono (v : Vehicle) (l : List UpdateArgs) :
    scoreLeB (bestTextScore v) (bestTextScore (applyUpdates v l))
      = true := by
  induction l generalizing v with
  | nil => exact scoreLeB_refl _
  | cons a l ih =>
    exact scoreLeB_trans _ _ _ (bestTextScore_mono_step v a)
      (ih (v.update a))

theorem c6_best_scores_monotone (v : Vehicle) (ops : List UpdateArgs)
    (i j : ℕ) (hij : i ≤ j) :
    scoreLeB (bestPlateScore (applyUpdates v (ops.take i)))
      (bestPlateScore (applyUpdates v (ops.take j))) = true ∧
    scoreLeB (bestTextScore (applyUpdates v (ops.take i)))
      (bestTextScore (applyUpdates v (ops.take j))) = true := by
  have hsplit : ops.take j = ops.take i ++ (ops.take j).drop i := by
    conv_lhs => rw [← List.take_append_drop i (ops.take j)]
    rw [List.take_take, min_eq_left hij]
  rw [hsplit]
  have happ : applyUpdates v (ops.take i ++ (ops.take j).drop i) =
      applyUpdates (applyUpdates v (ops.take i)) ((ops.take j).drop i) := by
    unfold applyUpdates
    rw [List.foldl_append]
  rw [happ]
  exact ⟨applyUpdates_plate_mono _ _, applyUpdates_text_mono _ _⟩

theorem c6_best_scores_monotone_witness :
    scoreLeB (bestPlateScore (applyUpdates sampleVehicle
      ([UpdateArgs.mk sampleImg none none 0 none 0 1].take 0)))
      (bestPlateScore (applyUpdates sampleVehicle
        ([UpdateArgs.mk sampleImg none none 0 none 0 1].take 1))) = true ∧
    scoreLeB (bestTextScore (applyUpdates sampleVehicle
      ([UpdateArgs.mk sampleImg none none 0 none 0 1].take 0)))
      (bestTextScore (applyUpdates sampleVehicle
        ([UpdateArgs.mk sampleImg none none 0 none 0 1].take 1))) = true :=
  c6_best_scores_monotone sampleVehicle
    [UpdateArgs.mk sampleImg none none 0 none 0 1] 0 1 (by decide)

end VPD
